import Mathlib

/-!
Shallow embedding of the Cybersecurity LMS backend (`src/main.py`,
`src/schemas.py`) and proofs of the specification claims.

Conventions of the embedding:
- Machine state is the document store (`Storage`), a typed list per
  collection, with a counter generating fresh identifier strings.
- Any storage call that Python can observe raising an exception is a
  `Except Unit _` value; the boolean fault flags in the per-handler
  environments choose whether each call site raises in a given run.
- Handlers return `Except Unit` results: the `Except.error` constructor is
  reachable only where the Python handler would let an exception escape, so
  "never returns an HTTP error for a storage problem" is `isOk` of the run.
- `database.py` is imported by `main.py` but is not part of the sources;
  its operations are modelled from the spec's Storage Accessor contract
  (section 4.2) where noted.
-/

namespace LMS

instance instDecEqExcept {ε α : Type} [DecidableEq ε] [DecidableEq α] :
    DecidableEq (Except ε α) := fun a b =>
  match a, b with
  | Except.ok x, Except.ok y =>
      if h : x = y then isTrue (by rw [h]) else isFalse (by intro hc; cases hc; exact h rfl)
  | Except.error x, Except.error y =>
      if h : x = y then isTrue (by rw [h]) else isFalse (by intro hc; cases hc; exact h rfl)
  | Except.ok _, Except.error _ => isFalse (by intro hc; cases hc)
  | Except.error _, Except.ok _ => isFalse (by intro hc; cases hc)

/-- Environment seen by `db_available` (`main.py` lines 31-35): whether the
module-level `db` handle is not `None`, and the outcome of
`db.list_collection_names()` — `Except.error ()` when that call raises,
`Except.ok names` when it returns a list of collection names. -/
structure DBEnv where
  dbIsSome : Bool
  probe : Except Unit (List String)
deriving DecidableEq, Repr

/-- `db_available` from `main.py`:
`return db is not None and isinstance(db.list_collection_names(), list) or True`
inside `try`, with `except Exception: return False`.
Python evaluates `(A and B) or True`; `B` is only evaluated when `A` is
truthy, and `isinstance` of the returned list is always `True`, so the
whole expression is `True` unless the probe call raises. -/
def db_available (env : DBEnv) : Bool :=
  match (if env.dbIsSome then env.probe.map (fun _ => true) else Except.ok false) with
  | Except.ok b => b || true
  | Except.error _ => false

/-- A stored `course` document (fields from `schemas.Course` plus the
generated `_id`, written `oid` here). -/
structure CourseDoc where
  oid : String
  title : String
  description : String
  level : String
  category : String
  thumbnail : Option String
deriving DecidableEq, Repr

/-- A stored `lesson` document (`schemas.Lesson` plus `_id`). -/
structure LessonDoc where
  oid : String
  course_id : String
  title : String
  content : String
  order : Int
deriving DecidableEq, Repr

/-- A stored `quiz` document (`schemas.Quiz` plus `_id`). -/
structure QuizDoc where
  oid : String
  lesson_id : String
  question : String
  options : List String
  correct_option : Int
deriving DecidableEq, Repr

/-- A stored `enrollment` document (`schemas.Enrollment` plus `_id`). -/
structure EnrollmentDoc where
  oid : String
  name : String
  email : String
  course_id : String
deriving DecidableEq, Repr

/-- A stored `submission` document (`schemas.Submission` plus `_id`). -/
structure SubmissionDoc where
  oid : String
  email : String
  quiz_id : String
  selected_option : Int
  score : Int
deriving DecidableEq, Repr

/-- The document store: one list per collection used by `main.py`, plus a
counter from which generated identifiers are drawn. -/
structure Storage where
  courses : List CourseDoc
  lessons : List LessonDoc
  quizzes : List QuizDoc
  enrollments : List EnrollmentDoc
  submissions : List SubmissionDoc
  nextOid : Nat
deriving DecidableEq, Repr

/-- Modelled from the spec: the Storage Accessor generates an opaque string
identifier for each inserted document (`create(collection, fields) -> id`,
implemented in `database.py`, which is not among the sources). -/
def freshOid (s : Storage) : String :=
  String.append "oid" (toString s.nextOid)

/-- Modelled from the spec: `create_document("course", fields)` — inserts one
course document and returns its generated identifier. -/
def create_document_course (s : Storage) (title description level category : String)
    (thumbnail : Option String) : String × Storage :=
  let oid := freshOid s
  (oid, { s with
            courses := s.courses ++ [⟨oid, title, description, level, category, thumbnail⟩],
            nextOid := s.nextOid + 1 })

/-- Modelled from the spec: `create_document("lesson", fields)`. -/
def create_document_lesson (s : Storage) (course_id title content : String)
    (order : Int) : String × Storage :=
  let oid := freshOid s
  (oid, { s with
            lessons := s.lessons ++ [⟨oid, course_id, title, content, order⟩],
            nextOid := s.nextOid + 1 })

/-- Modelled from the spec: `create_document("quiz", fields)`. -/
def create_document_quiz (s : Storage) (lesson_id question : String)
    (options : List String) (correct_option : Int) : String × Storage :=
  let oid := freshOid s
  (oid, { s with
            quizzes := s.quizzes ++ [⟨oid, lesson_id, question, options, correct_option⟩],
            nextOid := s.nextOid + 1 })

/-- Modelled from the spec: `create_document("enrollment", fields)`. -/
def create_document_enrollment (s : Storage) (name email course_id : String) :
    String × Storage :=
  let oid := freshOid s
  (oid, { s with
            enrollments := s.enrollments ++ [⟨oid, name, email, course_id⟩],
            nextOid := s.nextOid + 1 })

/-- Modelled from the spec: `create_document("submission", fields)`. -/
def create_document_submission (s : Storage) (email quiz_id : String)
    (selected_option score : Int) : String × Storage :=
  let oid := freshOid s
  (oid, { s with
            submissions := s.submissions ++ [⟨oid, email, quiz_id, selected_option, score⟩],
            nextOid := s.nextOid + 1 })

/-- A document as serialized in a response after `to_str_id` (`main.py`
lines 23-29): the internal `_id` renamed to a public string `id`. Course
shape. -/
structure CourseOut where
  id : String
  title : String
  description : String
  level : String
  category : String
  thumbnail : Option String
deriving DecidableEq, Repr

/-- Lesson shape after `to_str_id`. -/
structure LessonOut where
  id : String
  course_id : String
  title : String
  content : String
  order : Int
deriving DecidableEq, Repr

/-- Quiz shape after `to_str_id`. -/
structure QuizOut where
  id : String
  lesson_id : String
  question : String
  options : List String
  correct_option : Int
deriving DecidableEq, Repr

/-- `to_str_id` applied to a course document. -/
def to_str_id_course (c : CourseDoc) : CourseOut :=
  ⟨c.oid, c.title, c.description, c.level, c.category, c.thumbnail⟩

/-- `to_str_id` applied to a lesson document. -/
def to_str_id_lesson (l : LessonDoc) : LessonOut :=
  ⟨l.oid, l.course_id, l.title, l.content, l.order⟩

/-- `to_str_id` applied to a quiz document. -/
def to_str_id_quiz (q : QuizDoc) : QuizOut :=
  ⟨q.oid, q.lesson_id, q.question, q.options, q.correct_option⟩

/-- `SAMPLE_COURSE` from `main.py` lines 38-45. -/
def SAMPLE_COURSE : CourseOut :=
  { id := "sample-course-1"
    title := "Intro to Cybersecurity"
    description := "Learn fundamentals: CIA triad, threat landscape, basic defenses."
    level := "Beginner"
    category := "Foundations"
    thumbnail := none }

/-- `SAMPLE_LESSONS[0]` from `main.py` lines 47-53. -/
def SAMPLE_LESSON_1 : LessonOut :=
  { id := "sample-lesson-1"
    course_id := SAMPLE_COURSE.id
    title := "CIA Triad"
    content := "Confidentiality, Integrity, Availability — the pillars of security."
    order := 1 }

/-- `SAMPLE_LESSONS[1]` from `main.py` lines 54-60. -/
def SAMPLE_LESSON_2 : LessonOut :=
  { id := "sample-lesson-2"
    course_id := SAMPLE_COURSE.id
    title := "Threats & Vulnerabilities"
    content := "Malware, phishing, misconfigurations, weak passwords."
    order := 2 }

/-- `SAMPLE_LESSONS` from `main.py` lines 46-61. -/
def SAMPLE_LESSONS : List LessonOut := [SAMPLE_LESSON_1, SAMPLE_LESSON_2]

/-- `SAMPLE_QUIZ` from `main.py` lines 62-73. -/
def SAMPLE_QUIZ : QuizOut :=
  { id := "sample-quiz-1"
    lesson_id := "sample-lesson-1"
    question := "What does CIA stand for in cybersecurity?"
    options :=
      [ "Confidentiality, Integrity, Availability",
        "Control, Inspection, Analysis",
        "Confidentiality, Identity, Access",
        "Compliance, Integration, Auditing" ]
    correct_option := 0 }

/-- Modelled from the spec: the Storage Accessor
`query(collection, filter, limit?)` returns the documents matching an
exact-match filter (`database.get_documents`, not among the sources).
`get_documents("course")`: no filter, the whole collection. The `raises`
flag selects a run in which the backend call fails. -/
def get_documents_course (s : Storage) (raises : Bool) :
    Except Unit (List CourseDoc) :=
  if raises then Except.error () else Except.ok s.courses

/-- Modelled from the spec: `get_documents("lesson", filter)` with the
exact-match filter on the `course_id` field. -/
def get_documents_lesson (s : Storage) (raises : Bool) (course_id : String) :
    Except Unit (List LessonDoc) :=
  if raises then Except.error ()
  else Except.ok (s.lessons.filter (fun l => l.course_id = course_id))

/-- Modelled from the spec: `get_documents("quiz", filter, limit=1)` with the
exact-match filter on `lesson_id` and at most one result. -/
def get_documents_quiz (s : Storage) (raises : Bool) (lesson_id : String) :
    Except Unit (List QuizDoc) :=
  if raises then Except.error ()
  else Except.ok ((s.quizzes.filter (fun q => q.lesson_id = lesson_id)).take 1)

/-- Modelled from the spec: `get_documents("submission", filter)` with the
exact-match filter on `email`. -/
def get_documents_submission (s : Storage) (raises : Bool) (email : String) :
    Except Unit (List SubmissionDoc) :=
  if raises then Except.error ()
  else Except.ok (s.submissions.filter (fun x => x.email = email))

/-- `db["enrollment"].find_one({"email": ..., "course_id": ...})`
(`main.py` line 179): first matching document, or none. -/
def find_one_enrollment (s : Storage) (raises : Bool) (email course_id : String) :
    Except Unit (Option EnrollmentDoc) :=
  if raises then Except.error ()
  else Except.ok (s.enrollments.find? (fun x =>
    decide (x.email = email) && decide (x.course_id = course_id)))

/-- `ObjectId(quiz_id)` (`main.py` line 199): a valid `ObjectId` string is 24
hexadecimal characters; anything else raises `InvalidId`. -/
def parseObjectId (s : String) : Option String :=
  if s.length = 24 &&
      s.toList.all (fun c =>
        c.isDigit || (decide ('a' ≤ c) && decide (c ≤ 'f'))
          || (decide ('A' ≤ c) && decide (c ≤ 'F'))) then
    some s
  else none

/-- `db["quiz"].find_one({"_id": ObjectId(quiz_id)})` (`main.py` line 199):
raises when the identifier does not parse or when the backend call fails,
otherwise the first quiz document with that identifier, if any. -/
def find_one_quiz_by_id (s : Storage) (raises : Bool) (quiz_id : String) :
    Except Unit (Option QuizDoc) :=
  match parseObjectId quiz_id with
  | none => Except.error ()
  | some oid =>
      if raises then Except.error ()
      else Except.ok (s.quizzes.find? (fun q => q.oid = oid))

/-- Fault environment for `ensure_seed_data`: the prober environment, whether
`db["course"].count_documents({})` raises, and whether each of the four
`create_document` calls raises (in program order). -/
structure SeedEnv where
  env : DBEnv
  countRaises : Bool
  raise1 : Bool
  raise2 : Bool
  raise3 : Bool
  raise4 : Bool
deriving DecidableEq, Repr

/-- `ensure_seed_data` from `main.py` lines 76-120. A raising call inserts
nothing itself, but documents created by the calls before it remain: the
surrounding `except Exception: pass` only stops the rest of the block. -/
def ensure_seed_data (s : Storage) (e : SeedEnv) : Storage :=
  if db_available e.env then
    if e.countRaises then s
    else if s.courses.length = 0 then
      if e.raise1 then s
      else
        let (course_id, s1) := create_document_course s SAMPLE_COURSE.title
          SAMPLE_COURSE.description SAMPLE_COURSE.level SAMPLE_COURSE.category
          SAMPLE_COURSE.thumbnail
        if e.raise2 then s1
        else
          let (l1_id, s2) := create_document_lesson s1 course_id
            SAMPLE_LESSON_1.title SAMPLE_LESSON_1.content 1
          if e.raise3 then s2
          else
            let (_, s3) := create_document_lesson s2 course_id
              SAMPLE_LESSON_2.title SAMPLE_LESSON_2.content 2
            if e.raise4 then s3
            else
              let (_, s4) := create_document_quiz s3 l1_id SAMPLE_QUIZ.question
                SAMPLE_QUIZ.options SAMPLE_QUIZ.correct_option
              s4
    else s
  else s

/-- Response of `GET /courses`. -/
structure CoursesResp where
  items : List CourseOut
deriving DecidableEq, Repr

/-- Fault environment for `list_courses`. -/
structure CoursesEnv where
  env : DBEnv
  queryRaises : Bool
deriving DecidableEq, Repr

/-- `list_courses` from `main.py` lines 132-140. -/
def list_courses (s : Storage) (e : CoursesEnv) : Except Unit CoursesResp :=
  if db_available e.env then
    match get_documents_course s e.queryRaises with
    | Except.ok docs => Except.ok ⟨docs.map to_str_id_course⟩
    | Except.error _ => Except.ok ⟨[SAMPLE_COURSE]⟩
  else Except.ok ⟨[SAMPLE_COURSE]⟩

/-- Response of `GET /courses/{course_id}/lessons`. -/
structure LessonsResp where
  items : List LessonOut
deriving DecidableEq, Repr

/-- Fault environment for `list_lessons`. -/
structure LessonsEnv where
  env : DBEnv
  queryRaises : Bool
deriving DecidableEq, Repr

/-- The comparison used to model `lessons.sort(key=lambda x: x.get("order", 0))`
(`main.py` line 147): ascending on the `order` field. -/
def lessonLE (a b : LessonOut) : Prop := a.order ≤ b.order

instance : DecidableRel lessonLE := fun a b => inferInstanceAs (Decidable (a.order ≤ b.order))

instance : IsTotal LessonOut lessonLE := ⟨fun a b => Int.le_total a.order b.order⟩

instance : IsTrans LessonOut lessonLE := ⟨fun _ _ _ h1 h2 => le_trans h1 h2⟩

/-- `list_lessons` from `main.py` lines 142-155. The live branch sorts the
matches ascending by `order` and is only taken when it is non-empty; the
fallback serves the sample lessons for the sample course id and an empty
list otherwise. -/
def list_lessons (s : Storage) (e : LessonsEnv) (course_id : String) :
    Except Unit LessonsResp :=
  let live : Option LessonsResp :=
    if db_available e.env then
      match get_documents_lesson s e.queryRaises course_id with
      | Except.ok docs =>
          let lessons := List.insertionSort lessonLE (docs.map to_str_id_lesson)
          if lessons.isEmpty then none else some ⟨lessons⟩
      | Except.error _ => none
    else none
  match live with
  | some r => Except.ok r
  | none =>
      if course_id = SAMPLE_COURSE.id then Except.ok ⟨SAMPLE_LESSONS⟩
      else Except.ok ⟨[]⟩

/-- Response of `GET /lessons/{lesson_id}/quiz`. -/
structure QuizResp where
  quiz : Option QuizOut
deriving DecidableEq, Repr

/-- Fault environment for `get_quiz`. -/
structure QuizEnv where
  env : DBEnv
  queryRaises : Bool
deriving DecidableEq, Repr

/-- `get_quiz` from `main.py` lines 157-168. -/
def get_quiz (s : Storage) (e : QuizEnv) (lesson_id : String) :
    Except Unit QuizResp :=
  let live : Option QuizResp :=
    if db_available e.env then
      match get_documents_quiz s e.queryRaises lesson_id with
      | Except.ok docs =>
          match docs.map to_str_id_quiz with
          | [] => none
          | q :: _ => some ⟨some q⟩
      | Except.error _ => none
    else none
  match live with
  | some r => Except.ok r
  | none =>
      if lesson_id = SAMPLE_QUIZ.lesson_id then Except.ok ⟨some SAMPLE_QUIZ⟩
      else Except.ok ⟨none⟩

/-- Response of `POST /enroll`. -/
structure EnrollResp where
  status : String
deriving DecidableEq, Repr

/-- Fault environment for `enroll`: the prober environment, whether the
duplicate-check `find_one` raises, and whether the `create_document` insert
raises. -/
structure EnrollEnv where
  env : DBEnv
  findRaises : Bool
  insertRaises : Bool
deriving DecidableEq, Repr

/-- `enroll` from `main.py` lines 175-187. The handler returns the response
together with the storage state after the call. -/
def enroll (s : Storage) (e : EnrollEnv) (name email course_id : String) :
    Except Unit (EnrollResp × Storage) :=
  if db_available e.env then
    let live : Except Unit (EnrollResp × Storage) :=
      match find_one_enrollment s e.findRaises email course_id with
      | Except.error u => Except.error u
      | Except.ok (some _) => Except.ok (⟨"already_enrolled"⟩, s)
      | Except.ok none =>
          if e.insertRaises then Except.error ()
          else
            let (_, s1) := create_document_enrollment s name email course_id
            Except.ok (⟨"enrolled"⟩, s1)
    match live with
    | Except.ok r => Except.ok r
    | Except.error _ => Except.ok (⟨"enrolled"⟩, s)
  else Except.ok (⟨"enrolled"⟩, s)

/-- Response of `POST /submit-quiz`: `{"correct": bool(score), "score": score}`. -/
structure SubmitResp where
  correct : Bool
  score : Int
deriving DecidableEq, Repr

/-- Fault environment for `submit_quiz`: the prober environment at the first
`db_available()` call (line 197) and at the second (line 211), whether the
quiz `find_one` raises, and whether the submission insert raises. -/
structure SubmitEnv where
  env1 : DBEnv
  env2 : DBEnv
  findRaises : Bool
  insertRaises : Bool
deriving DecidableEq, Repr

/-- `submit_quiz` from `main.py` lines 194-224. `correct_option` starts as
`None`; the live lookup fills it only when the quiz is found; the fallback
assigns the sample quiz answer for the sample quiz id and `-1` otherwise;
`score` is `1` on an exact match of `selected_option`; the submission insert
is attempted when the second probe reports available and its failure is
swallowed. -/
def submit_quiz (s : Storage) (e : SubmitEnv) (email quiz_id : String)
    (selected_option : Int) : Except Unit (SubmitResp × Storage) :=
  let liveCorrect : Option Int :=
    if db_available e.env1 then
      match find_one_quiz_by_id s e.findRaises quiz_id with
      | Except.ok (some q) => some q.correct_option
      | Except.ok none => none
      | Except.error _ => none
    else none
  let correct_option : Int :=
    match liveCorrect with
    | some c => c
    | none => if quiz_id = SAMPLE_QUIZ.id then SAMPLE_QUIZ.correct_option else -1
  let score : Int := if selected_option = correct_option then 1 else 0
  let s1 : Storage :=
    if db_available e.env2 then
      if e.insertRaises then s
      else (create_document_submission s email quiz_id selected_option score).2
    else s
  Except.ok (⟨decide (score ≠ 0), score⟩, s1)

/-- Response of `GET /progress`. -/
structure ProgressResp where
  email : String
  course_id : String
  quizzes_attempted : Nat
  correct : Nat
deriving DecidableEq, Repr

/-- Fault environment for `get_progress`. -/
structure ProgressEnv where
  env : DBEnv
  queryRaises : Bool
deriving DecidableEq, Repr

/-- `get_progress` from `main.py` lines 226-237: counts all submissions whose
`email` matches, and those among them whose `score` equals 1; the
`course_id` query parameter is copied into the response. -/
def get_progress (s : Storage) (e : ProgressEnv) (email course_id : String) :
    Except Unit ProgressResp :=
  if db_available e.env then
    match get_documents_submission s e.queryRaises email with
    | Except.ok subs =>
        Except.ok ⟨email, course_id, subs.length,
          (subs.filter (fun x => x.score = 1)).length⟩
    | Except.error _ => Except.ok ⟨email, course_id, 0, 0⟩
  else Except.ok ⟨email, course_id, 0, 0⟩

/-- Response of `GET /`. -/
structure RootResp where
  message : String
deriving DecidableEq, Repr

/-- `root` from `main.py` lines 126-128. -/
def root : Except Unit RootResp :=
  Except.ok ⟨"Cybersecurity LMS API running"⟩

/-- Response of `GET /test` (`main.py` lines 239-268), with the string
fields the handler fills in. -/
structure TestResp where
  backend : String
  database : String
  database_url : String
  database_name : String
  connection_status : String
  collections : List String
deriving DecidableEq, Repr

/-- Fault environment for `test_database`: the prober environment, the
outcome of the second `db.list_collection_names()` call (line 256), whether
the `DATABASE_URL` and `DATABASE_NAME` environment variables are set, and
the database handle's `name` attribute when it has one. -/
structure TestEnv where
  env : DBEnv
  collectionsCall : Except Unit (List String)
  dbUrlSet : Bool
  dbNameSet : Bool
  dbNameAttr : Option String
deriving DecidableEq, Repr

/-- `test_database` from `main.py` lines 239-268: starts from a default
response, fills in connectivity fields inside a swallow-all `try`, and
finally overwrites `database_url` and `database_name` with environment
variable presence flags. For a raised inner collections call the model
keeps the static error prefix of the message. -/
def test_database (e : TestEnv) : Except Unit TestResp :=
  let base : TestResp :=
    ⟨"✅ Running", "❌ Not Available", "", "", "Not Connected", []⟩
  let filled : TestResp :=
    if db_available e.env then
      let r1 : TestResp :=
        { base with
            database := "✅ Available"
            database_name := match e.dbNameAttr with
              | some n => n
              | none => "Unknown"
            connection_status := "Connected" }
      match e.collectionsCall with
      | Except.ok names =>
          { r1 with collections := names.take 10, database := "✅ Connected & Working" }
      | Except.error _ =>
          { r1 with database := "⚠️  Connected but Error: " }
    else { base with database := "⚠️  Unavailable" }
  Except.ok { filled with
    database_url := if e.dbUrlSet then "✅ Set" else "❌ Not Set"
    database_name := if e.dbNameSet then "✅ Set" else "❌ Not Set" }

/-- Whether a handler run produced a normal response (`Except.ok`) rather
than letting an exception escape as an HTTP error. -/
def returnsOk {α : Type} (r : Except Unit α) : Bool :=
  match r with
  | Except.ok _ => true
  | Except.error _ => false

/-- Number of enrollment documents stored for one `(email, course_id)` pair;
the storage invariant of the spec is that this never exceeds 1. -/
def pair_enrollments (s : Storage) (email course_id : String) : Nat :=
  s.enrollments.countP (fun x =>
    decide (x.email = email) && decide (x.course_id = course_id))

/-- The correct option of a submit-quiz request as claim C1 words it
(claim-side definition, to be compared against the handler): the live quiz
document's `correct_option` when storage is available and the lookup by quiz
id succeeds and finds a document; else the fallback quiz's `correct_option`
when the requested id equals the fallback quiz id; else the sentinel `-1`. -/
def claim_resolved_correct (s : Storage) (e : SubmitEnv) (quiz_id : String) : Int :=
  match (if db_available e.env1 then
           match find_one_quiz_by_id s e.findRaises quiz_id with
           | Except.ok (some q) => some q.correct_option
           | _ => none
         else none) with
  | some c => c
  | none => if quiz_id = SAMPLE_QUIZ.id then SAMPLE_QUIZ.correct_option else -1

/-- The storage state after an `enroll` run (the handler never errors, and
the dead error branch keeps the state unchanged). -/
def enroll_post (s : Storage) (e : EnrollEnv) (name email course_id : String) :
    Storage :=
  match enroll s e name email course_id with
  | Except.ok (_, s1) => s1
  | Except.error _ => s

/-- A storage state with all collections empty, used to instantiate the
universally quantified theorems at a concrete input. -/
def emptyStorage : Storage := ⟨[], [], [], [], [], 0⟩

/-- A prober environment in which the handle is set and the introspection
call completes, so `db_available` reports available. -/
def liveEnv : DBEnv := ⟨true, Except.ok []⟩

/-- A prober environment in which the introspection call raises, so
`db_available` reports unavailable. -/
def downEnv : DBEnv := ⟨true, Except.error ()⟩

/-- C3: `db_available` returns `false` exactly when the introspection call
raises — that is, when the `db` handle is non-null (so the call is made at
all) and `list_collection_names()` raises; every completed call, whatever
list it returns, and a null `db` handle both yield `true`. -/
theorem db_available_false_iff_probe_raises (env : DBEnv) :
    db_available env = false ↔
      env.dbIsSome = true ∧ env.probe = Except.error () := by
  unfold db_available
  cases h : env.dbIsSome
  · simp
  · cases hp : env.probe with
    | ok names => simp [Except.map, hp]
    | error u => cases u; simp [Except.map, hp]

/-- C10: `get_progress` computes `quizzes_attempted` and `correct` from the
submissions matching the email alone; two requests differing only in
`course_id` (same storage, same environment) get identical counts, and the
`course_id` is merely echoed back in the response. -/
theorem get_progress_ignores_course_id (s : Storage) (e : ProgressEnv)
    (email c1 c2 : String) :
    ∃ n k : Nat,
      get_progress s e email c1 = Except.ok ⟨email, c1, n, k⟩ ∧
      get_progress s e email c2 = Except.ok ⟨email, c2, n, k⟩ := by
  cases hdb : db_available e.env
  · exact ⟨0, 0, by simp [get_progress, hdb], by simp [get_progress, hdb]⟩
  · cases hr : e.queryRaises
    · exact ⟨(s.submissions.filter (fun x => x.email = email)).length,
        ((s.submissions.filter (fun x => x.email = email)).filter
          (fun x => x.score = 1)).length,
        by simp [get_progress, hdb, get_documents_submission, hr],
        by simp [get_progress, hdb, get_documents_submission, hr]⟩
    · exact ⟨0, 0, by simp [get_progress, hdb, get_documents_submission, hr],
        by simp [get_progress, hdb, get_documents_submission, hr]⟩

/-- C9: every `list_lessons` run returns a normal response whose items are
sorted ascending on the `order` field (`lessonLE`); in particular every
non-empty result is so sorted. -/
theorem list_lessons_sorted_by_order (s : Storage) (e : LessonsEnv)
    (course_id : String) :
    ∃ r : LessonsResp, list_lessons s e course_id = Except.ok r ∧
      List.Sorted lessonLE r.items := by
  have hsample : List.Sorted lessonLE SAMPLE_LESSONS := by
    simp [SAMPLE_LESSONS, List.sorted_cons, lessonLE, SAMPLE_LESSON_1, SAMPLE_LESSON_2]
  have hfall : ∀ cid : String, ∃ r : LessonsResp,
      ((if cid = SAMPLE_COURSE.id then Except.ok (⟨SAMPLE_LESSONS⟩ : LessonsResp)
        else Except.ok ⟨[]⟩) : Except Unit LessonsResp) = Except.ok r ∧
        List.Sorted lessonLE r.items := by
    intro cid
    by_cases hc : cid = SAMPLE_COURSE.id
    · exact ⟨⟨SAMPLE_LESSONS⟩, by simp [hc], hsample⟩
    · exact ⟨⟨[]⟩, by simp [hc], List.sorted_nil⟩
  cases hdb : db_available e.env
  · simpa [list_lessons, hdb] using hfall course_id
  · cases hq : get_documents_lesson s e.queryRaises course_id with
    | error u => simpa [list_lessons, hdb, hq] using hfall course_id
    | ok docs =>
        by_cases he : List.insertionSort lessonLE (docs.map to_str_id_lesson) = []
        · simpa [list_lessons, hdb, hq, he] using hfall course_id
        · exact ⟨⟨List.insertionSort lessonLE (docs.map to_str_id_lesson)⟩,
            by simp [list_lessons, hdb, hq, he],
            List.sorted_insertionSort lessonLE _⟩

/-- C7: for every storage state and every fault environment — prober false,
or any storage call raising — every handler run yields a normal `Except.ok`
response; no storage failure escapes as an error. -/
theorem handlers_never_error
    (s : Storage) (ce : CoursesEnv) (le : LessonsEnv) (qe : QuizEnv)
    (ee : EnrollEnv) (se : SubmitEnv) (pe : ProgressEnv) (te : TestEnv)
    (cidL lidQ name emailE cidE emailS qidS emailP cidP : String) (sel : Int) :
    returnsOk (list_courses s ce) = true ∧
    returnsOk (list_lessons s le cidL) = true ∧
    returnsOk (get_quiz s qe lidQ) = true ∧
    returnsOk (enroll s ee name emailE cidE) = true ∧
    returnsOk (submit_quiz s se emailS qidS sel) = true ∧
    returnsOk (get_progress s pe emailP cidP) = true ∧
    returnsOk root = true ∧
    returnsOk (test_database te) = true := by
  refine ⟨?_, ?_, ?_, ?_, rfl, ?_, rfl, rfl⟩
  · cases hdb : db_available ce.env
    · simp [list_courses, hdb, returnsOk]
    · cases hq : get_documents_course s ce.queryRaises <;>
        simp [list_courses, hdb, hq, returnsOk]
  · cases hdb : db_available le.env
    · simp only [list_lessons, hdb, Bool.false_eq_true, if_false]
      by_cases hc : cidL = SAMPLE_COURSE.id <;> simp [hc, returnsOk]
    · cases hq : get_documents_lesson s le.queryRaises cidL with
      | error u =>
          simp only [list_lessons, hdb, hq, if_true]
          by_cases hc : cidL = SAMPLE_COURSE.id <;> simp [hc, returnsOk]
      | ok docs =>
          by_cases he : List.insertionSort lessonLE (docs.map to_str_id_lesson) = []
          · simp only [list_lessons, hdb, hq, he, if_true]
            by_cases hc : cidL = SAMPLE_COURSE.id <;> simp [hc, returnsOk, he]
          · simp [list_lessons, hdb, hq, he, returnsOk]
  · cases hdb : db_available qe.env
    · simp only [get_quiz, hdb, Bool.false_eq_true, if_false]
      by_cases hl : lidQ = SAMPLE_QUIZ.lesson_id <;> simp [hl, returnsOk]
    · cases hq : get_documents_quiz s qe.queryRaises lidQ with
      | error u =>
          simp only [get_quiz, hdb, hq, if_true]
          by_cases hl : lidQ = SAMPLE_QUIZ.lesson_id <;> simp [hl, returnsOk]
      | ok docs =>
          cases docs with
          | nil =>
              simp only [get_quiz, hdb, hq, if_true]
              by_cases hl : lidQ = SAMPLE_QUIZ.lesson_id <;> simp [hl, returnsOk]
          | cons q qs => simp [get_quiz, hdb, hq, returnsOk]
  · cases hdb : db_available ee.env
    · simp [enroll, hdb, returnsOk]
    · cases hf : ee.findRaises
      · cases hfind : s.enrollments.find? (fun x =>
            decide (x.email = emailE) && decide (x.course_id = cidE))
        · cases hi : ee.insertRaises <;>
            simp [enroll, hdb, find_one_enrollment, hf, hfind, hi, returnsOk]
        · simp [enroll, hdb, find_one_enrollment, hf, hfind, returnsOk]
      · simp [enroll, hdb, find_one_enrollment, hf, returnsOk]
  · cases hdb : db_available pe.env
    · simp [get_progress, hdb, returnsOk]
    · cases hr : pe.queryRaises <;>
        simp [get_progress, hdb, get_documents_submission, hr, returnsOk]

/-- Shared characterization of a `submit_quiz` run: its response scores the
request against `claim_resolved_correct`, and the post state appends the
submission record exactly when the second probe reports available and the
insert does not raise. -/
theorem submit_quiz_run (s : Storage) (e : SubmitEnv) (email quiz_id : String)
    (sel : Int) :
    submit_quiz s e email quiz_id sel =
      Except.ok
        (⟨decide ((if sel = claim_resolved_correct s e quiz_id then (1 : Int) else 0) ≠ 0),
          if sel = claim_resolved_correct s e quiz_id then 1 else 0⟩,
         if db_available e.env2 then
           if e.insertRaises then s
           else (create_document_submission s email quiz_id sel
             (if sel = claim_resolved_correct s e quiz_id then 1 else 0)).2
         else s) := by
  unfold submit_quiz claim_resolved_correct
  cases hdb : db_available e.env1
  · simp
  · cases hq : find_one_quiz_by_id s e.findRaises quiz_id with
    | error u => simp [hq]
    | ok o => cases o <;> simp [hq]

/-- A parsed `ObjectId` string is returned unchanged. -/
theorem parseObjectId_eq_some {s t : String} (h : parseObjectId s = some t) :
    t = s := by
  unfold parseObjectId at h
  by_cases hc : (s.length = 24 &&
      s.toList.all (fun c =>
        c.isDigit || (decide ('a' ≤ c) && decide (c ≤ 'f'))
          || (decide ('A' ≤ c) && decide (c ≤ 'F')))) = true
  · rw [if_pos hc] at h; cases h; rfl
  · rw [if_neg hc] at h; cases h

/-- When no stored quiz carries the requested identifier, the live lookup
never produces a document, whatever the fault flags. -/
theorem claim_resolved_correct_of_not_found (s : Storage) (e : SubmitEnv)
    (quiz_id : String) (hq : ∀ q ∈ s.quizzes, q.oid ≠ quiz_id) :
    claim_resolved_correct s e quiz_id =
      (if quiz_id = SAMPLE_QUIZ.id then SAMPLE_QUIZ.correct_option else -1) := by
  unfold claim_resolved_correct
  cases hdb : db_available e.env1
  · simp
  · cases hf : find_one_quiz_by_id s e.findRaises quiz_id with
    | error u => simp [hf]
    | ok o =>
        cases o with
        | none => simp [hf]
        | some q =>
            exfalso
            unfold find_one_quiz_by_id at hf
            cases hp : parseObjectId quiz_id with
            | none => simp [hp] at hf
            | some oid =>
                cases hr : e.findRaises
                · simp [hp, hr] at hf
                  have hoid : q.oid = oid := by simpa using List.find?_some hf
                  have hmem : q ∈ s.quizzes := List.mem_of_find?_eq_some hf
                  have hqoid : oid = quiz_id := parseObjectId_eq_some hp
                  exact hq q hmem (by rw [hoid, hqoid])
                · simp [hp, hr] at hf

/-- C1: every submit-quiz response scores 1 exactly when `selected_option`
equals the correct option resolved in the order: live quiz document when
storage is available and the lookup by id succeeds, else the fallback
quiz's `correct_option` (which is 0) when the id is the fallback quiz id,
else the sentinel `-1`; and the `correct` flag is true exactly when the
score is 1. -/
theorem submit_quiz_scoring (s : Storage) (e : SubmitEnv) (email quiz_id : String)
    (sel : Int) :
    (∃ (r : SubmitResp) (s1 : Storage),
      submit_quiz s e email quiz_id sel = Except.ok (r, s1) ∧
      r.score = (if sel = claim_resolved_correct s e quiz_id then 1 else 0) ∧
      (r.correct = true ↔ r.score = 1)) ∧
    SAMPLE_QUIZ.correct_option = 0 := by
  refine ⟨⟨_, _, submit_quiz_run s e email quiz_id sel, rfl, ?_⟩, rfl⟩
  by_cases hif : sel = claim_resolved_correct s e quiz_id <;> simp [hif]

/-- C2 counterexample: a live-mode submit-quiz request whose quiz id is
absent from storage and differs from the fallback quiz id does NOT always
score 0: with `selected_option = -1` the unconstrained request integer
equals the sentinel `-1`, so the handler returns score 1 (and records it). -/
theorem submit_quiz_sentinel_counterexample :
    (∀ q ∈ emptyStorage.quizzes, q.oid ≠ "missing-quiz") ∧
    ("missing-quiz" : String) ≠ SAMPLE_QUIZ.id ∧
    db_available liveEnv = true ∧
    submit_quiz emptyStorage ⟨liveEnv, liveEnv, false, false⟩ "u@example.com"
        "missing-quiz" (-1) =
      Except.ok (⟨true, 1⟩,
        ⟨[], [], [], [], [⟨"oid0", "u@example.com", "missing-quiz", -1, 1⟩], 1⟩) := by
  refine ⟨by simp [emptyStorage], by decide, by decide, ?_⟩
  rfl

/-- C2 (amended): for every submit-quiz request whose quiz id neither names
a stored quiz nor equals the fallback quiz id, the correct option resolves
to the sentinel `-1` and the response has score 0 for every
`selected_option` other than `-1`; a request selecting `-1` itself matches
the sentinel and scores 1. -/
theorem submit_quiz_nonexistent_scores_zero (s : Storage) (e : SubmitEnv)
    (email quiz_id : String) (sel : Int)
    (hq : ∀ q ∈ s.quizzes, q.oid ≠ quiz_id)
    (hid : quiz_id ≠ SAMPLE_QUIZ.id)
    (hsel : sel ≠ -1) :
    claim_resolved_correct s e quiz_id = -1 ∧
    ∃ s1 : Storage,
      submit_quiz s e email quiz_id sel = Except.ok (⟨false, 0⟩, s1) := by
  have hres := claim_resolved_correct_of_not_found s e quiz_id hq
  rw [if_neg hid] at hres
  refine ⟨hres, ?_⟩
  rw [submit_quiz_run s e email quiz_id sel, hres]
  simp [hsel]

/-- Closed instance of `submit_quiz_nonexistent_scores_zero`: quiz id
`missing-quiz` over empty live storage, selecting option 2, scores 0. -/
theorem submit_quiz_nonexistent_scores_zero_witness :
    (∀ q ∈ emptyStorage.quizzes, q.oid ≠ "missing-quiz") ∧
    ("missing-quiz" : String) ≠ SAMPLE_QUIZ.id ∧
    ((2 : Int) ≠ -1) ∧
    (claim_resolved_correct emptyStorage ⟨liveEnv, liveEnv, false, false⟩
        "missing-quiz" = -1 ∧
      ∃ s1 : Storage,
        submit_quiz emptyStorage ⟨liveEnv, liveEnv, false, false⟩ "u@example.com"
          "missing-quiz" 2 = Except.ok (⟨false, 0⟩, s1)) :=
  ⟨by simp [emptyStorage], by decide, by decide,
   submit_quiz_nonexistent_scores_zero emptyStorage ⟨liveEnv, liveEnv, false, false⟩
     "u@example.com" "missing-quiz" 2 (by simp [emptyStorage]) (by decide) (by decide)⟩

/-- C8: when the second probe reports storage available and the insert does
not raise, one submission record carrying the request's email, quiz id,
selected option and computed score is appended — whichever branch resolved
the correct option; and the run in which the insert raises instead returns
the identical response. -/
theorem submit_quiz_record_persisted (s : Storage) (e : SubmitEnv)
    (email quiz_id : String) (sel : Int)
    (h2 : db_available e.env2 = true) (hi : e.insertRaises = false) :
    ∃ (r : SubmitResp) (s1 : Storage),
      submit_quiz s e email quiz_id sel = Except.ok (r, s1) ∧
      s1.submissions = s.submissions ++ [⟨freshOid s, email, quiz_id, sel, r.score⟩] ∧
      Except.map Prod.fst
        (submit_quiz s ⟨e.env1, e.env2, e.findRaises, true⟩ email quiz_id sel) =
        Except.ok r := by
  refine ⟨_, _, submit_quiz_run s e email quiz_id sel, ?_, ?_⟩
  · simp [h2, hi, create_document_submission]
  · rw [submit_quiz_run]
    have henv : claim_resolved_correct s ⟨e.env1, e.env2, e.findRaises, true⟩ quiz_id
        = claim_resolved_correct s e quiz_id := rfl
    simp [henv, Except.map]

/-- Closed instance of `submit_quiz_record_persisted`: live storage, sample
quiz id, selected option 0. -/
theorem submit_quiz_record_persisted_witness :
    db_available liveEnv = true ∧
    (∃ (r : SubmitResp) (s1 : Storage),
      submit_quiz emptyStorage ⟨liveEnv, liveEnv, false, false⟩ "u@example.com"
          "sample-quiz-1" 0 = Except.ok (r, s1) ∧
      s1.submissions = emptyStorage.submissions ++
        [⟨freshOid emptyStorage, "u@example.com", "sample-quiz-1", 0, r.score⟩] ∧
      Except.map Prod.fst
        (submit_quiz emptyStorage ⟨liveEnv, liveEnv, false, true⟩ "u@example.com"
          "sample-quiz-1" 0) = Except.ok r) :=
  ⟨by decide,
   submit_quiz_record_persisted emptyStorage ⟨liveEnv, liveEnv, false, false⟩
     "u@example.com" "sample-quiz-1" 0 (by decide) rfl⟩

/-- C4: in live mode with no storage faults, enrolling a pair already in
storage returns `already_enrolled` and leaves storage unchanged, while a
first enrollment appends exactly one document and returns `enrolled`; and
every enroll run — under any environment — preserves the invariant of at
most one enrollment document per `(email, course)` pair. -/
theorem enroll_unique_pair (s : Storage) (e e2 : EnrollEnv)
    (name email course_id em cid : String)
    (hAvail : db_available e.env = true)
    (hf : e.findRaises = false) (hi : e.insertRaises = false)
    (hinv : ∀ a b, pair_enrollments s a b ≤ 1) :
    (match s.enrollments.find? (fun x =>
        decide (x.email = email) && decide (x.course_id = course_id)) with
     | some _ => enroll s e name email course_id = Except.ok (⟨"already_enrolled"⟩, s)
     | none => enroll s e name email course_id =
         Except.ok (⟨"enrolled"⟩,
           (create_document_enrollment s name email course_id).2)) ∧
    pair_enrollments (enroll_post s e2 name email course_id) em cid ≤ 1 := by
  constructor
  · cases hfind : s.enrollments.find? (fun x =>
        decide (x.email = email) && decide (x.course_id = course_id)) with
    | some d => simp [enroll, hAvail, find_one_enrollment, hf, hfind]
    | none => simp [enroll, hAvail, find_one_enrollment, hf, hfind, hi]
  · cases hdb : db_available e2.env
    · simpa [enroll_post, enroll, hdb] using hinv em cid
    · cases hfr : e2.findRaises
      · cases hfind : s.enrollments.find? (fun x =>
            decide (x.email = email) && decide (x.course_id = course_id)) with
        | some d =>
            simpa [enroll_post, enroll, hdb, find_one_enrollment, hfr, hfind]
              using hinv em cid
        | none =>
            cases hir : e2.insertRaises
            · have hzero : s.enrollments.countP (fun x =>
                  decide (x.email = email) && decide (x.course_id = course_id)) = 0 := by
                rw [List.countP_eq_zero]
                intro a ha
                simpa using List.find?_eq_none.mp hfind a ha
              have hpost : enroll_post s e2 name email course_id =
                  (create_document_enrollment s name email course_id).2 := by
                simp [enroll_post, enroll, hdb, find_one_enrollment, hfr, hfind, hir]
              rw [hpost]
              unfold pair_enrollments create_document_enrollment
              rw [List.countP_append]
              by_cases hm : email = em ∧ course_id = cid
              · obtain ⟨hm1, hm2⟩ := hm
                subst hm1; subst hm2
                simp [hzero, List.countP_cons]
              · have hfalse : (decide (email = em) && decide (course_id = cid)) = false := by
                  rcases not_and_or.mp hm with hb | hb <;> simp [hb]
                have := hinv em cid
                unfold pair_enrollments at this
                simpa [List.countP_cons, hfalse] using this
            · simpa [enroll_post, enroll, hdb, find_one_enrollment, hfr, hfind, hir]
                using hinv em cid
      · simpa [enroll_post, enroll, hdb, find_one_enrollment, hfr] using hinv em cid

/-- Closed instance of `enroll_unique_pair`: first enrollment of the pair
`("a@b.c", "c1")` into empty live storage. -/
theorem enroll_unique_pair_witness :
    db_available liveEnv = true ∧
    ((match emptyStorage.enrollments.find? (fun x =>
        decide (x.email = "a@b.c") && decide (x.course_id = "c1")) with
      | some _ => enroll emptyStorage ⟨liveEnv, false, false⟩ "Ann" "a@b.c" "c1" =
          Except.ok (⟨"already_enrolled"⟩, emptyStorage)
      | none => enroll emptyStorage ⟨liveEnv, false, false⟩ "Ann" "a@b.c" "c1" =
          Except.ok (⟨"enrolled"⟩,
            (create_document_enrollment emptyStorage "Ann" "a@b.c" "c1").2)) ∧
     pair_enrollments
       (enroll_post emptyStorage ⟨liveEnv, false, false⟩ "Ann" "a@b.c" "c1")
       "a@b.c" "c1" ≤ 1) :=
  ⟨by decide,
   enroll_unique_pair emptyStorage ⟨liveEnv, false, false⟩ ⟨liveEnv, false, false⟩
     "Ann" "a@b.c" "c1" "a@b.c" "c1" (by decide) rfl rfl
     (fun a b => by simp [pair_enrollments, emptyStorage])⟩

/-- C5: with the prober reporting available, an empty course collection and
no storage faults, seeding inserts exactly one course, exactly two lessons
with orders 1 and 2 linked to the generated course id, and exactly one quiz
linked to the first lesson's id with the four fixed options and correct
option 0; while a non-empty course collection is never modified, whatever
the environment. -/
theorem ensure_seed_data_seeds (s s2 : Storage) (e e2 : SeedEnv)
    (hAvail : db_available e.env = true) (hEmpty : s.courses = [])
    (hcnt : e.countRaises = false) (h1 : e.raise1 = false) (h2 : e.raise2 = false)
    (h3 : e.raise3 = false) (h4 : e.raise4 = false)
    (hne : s2.courses ≠ []) :
    (∃ (c : CourseDoc) (l1 l2 : LessonDoc) (q : QuizDoc),
      ensure_seed_data s e =
        { courses := [c], lessons := s.lessons ++ [l1, l2],
          quizzes := s.quizzes ++ [q], enrollments := s.enrollments,
          submissions := s.submissions, nextOid := s.nextOid + 4 } ∧
      l1.course_id = c.oid ∧ l2.course_id = c.oid ∧
      l1.order = 1 ∧ l2.order = 2 ∧
      q.lesson_id = l1.oid ∧ q.options = SAMPLE_QUIZ.options ∧
      q.options.length = 4 ∧ q.correct_option = 0 ∧
      c.title = SAMPLE_COURSE.title) ∧
    ensure_seed_data s2 e2 = s2 := by
  constructor
  · refine ⟨⟨String.append "oid" (toString s.nextOid), SAMPLE_COURSE.title,
        SAMPLE_COURSE.description, SAMPLE_COURSE.level, SAMPLE_COURSE.category,
        SAMPLE_COURSE.thumbnail⟩,
      ⟨String.append "oid" (toString (s.nextOid + 1)),
        String.append "oid" (toString s.nextOid),
        SAMPLE_LESSON_1.title, SAMPLE_LESSON_1.content, 1⟩,
      ⟨String.append "oid" (toString (s.nextOid + 2)),
        String.append "oid" (toString s.nextOid),
        SAMPLE_LESSON_2.title, SAMPLE_LESSON_2.content, 2⟩,
      ⟨String.append "oid" (toString (s.nextOid + 3)),
        String.append "oid" (toString (s.nextOid + 1)),
        SAMPLE_QUIZ.question, SAMPLE_QUIZ.options, SAMPLE_QUIZ.correct_option⟩,
      ?_, rfl, rfl, rfl, rfl, rfl, rfl, rfl, rfl, rfl⟩
    simp only [ensure_seed_data, hAvail, hcnt, h1, h2, h3, h4, hEmpty,
      create_document_course, create_document_lesson, create_document_quiz,
      freshOid, if_true, Bool.false_eq_true, if_false, List.length_nil,
      List.nil_append]
    simp [List.append_assoc]
  · unfold ensure_seed_data
    cases hdb : db_available e2.env
    · simp
    · cases hcr : e2.countRaises
      · have hlen : s2.courses.length ≠ 0 := by
          simpa [List.length_eq_zero] using hne
        simp [hlen]
      · simp

/-- Closed instance of `ensure_seed_data_seeds`: seeding an empty live
storage, with a one-course storage for the non-empty half. -/
theorem ensure_seed_data_seeds_witness :
    db_available liveEnv = true ∧
    (⟨[⟨"c1", "t", "d", "Beginner", "Foundations", none⟩],
      [], [], [], [], 7⟩ : Storage).courses ≠ [] ∧
    ((∃ (c : CourseDoc) (l1 l2 : LessonDoc) (q : QuizDoc),
      ensure_seed_data emptyStorage ⟨liveEnv, false, false, false, false, false⟩ =
        { courses := [c], lessons := emptyStorage.lessons ++ [l1, l2],
          quizzes := emptyStorage.quizzes ++ [q],
          enrollments := emptyStorage.enrollments,
          submissions := emptyStorage.submissions,
          nextOid := emptyStorage.nextOid + 4 } ∧
      l1.course_id = c.oid ∧ l2.course_id = c.oid ∧
      l1.order = 1 ∧ l2.order = 2 ∧
      q.lesson_id = l1.oid ∧ q.options = SAMPLE_QUIZ.options ∧
      q.options.length = 4 ∧ q.correct_option = 0 ∧
      c.title = SAMPLE_COURSE.title) ∧
    ensure_seed_data
      ⟨[⟨"c1", "t", "d", "Beginner", "Foundations", none⟩], [], [], [], [], 7⟩
      ⟨liveEnv, false, false, false, false, false⟩ =
      ⟨[⟨"c1", "t", "d", "Beginner", "Foundations", none⟩], [], [], [], [], 7⟩) :=
  ⟨by decide, by decide,
   ensure_seed_data_seeds emptyStorage
     ⟨[⟨"c1", "t", "d", "Beginner", "Foundations", none⟩], [], [], [], [], 7⟩
     ⟨liveEnv, false, false, false, false, false⟩
     ⟨liveEnv, false, false, false, false, false⟩
     (by decide) rfl rfl rfl rfl rfl rfl (by decide)⟩

/-- C6: with the storage backend entirely unavailable — the probe raises, so
`db_available` reports false and no live call is reached — the endpoints
serve exactly the fallback data: the single sample course; the two sample
lessons (orders 1 then 2) for the sample course id and the empty list for
any other course id; the sample quiz (correct option 0) for the sample
lesson id and a null quiz for any other lesson id. -/
theorem fallback_serving (s : Storage) (d : DBEnv) (qr lr gr : Bool)
    (course_id lesson_id : String)
    (h : db_available d = false)
    (hc : course_id ≠ SAMPLE_COURSE.id) (hl : lesson_id ≠ SAMPLE_QUIZ.lesson_id) :
    list_courses s ⟨d, qr⟩ = Except.ok ⟨[SAMPLE_COURSE]⟩ ∧
    list_lessons s ⟨d, lr⟩ "sample-course-1" =
      Except.ok ⟨[SAMPLE_LESSON_1, SAMPLE_LESSON_2]⟩ ∧
    SAMPLE_LESSON_1.order = 1 ∧ SAMPLE_LESSON_2.order = 2 ∧
    list_lessons s ⟨d, lr⟩ course_id = Except.ok ⟨[]⟩ ∧
    get_quiz s ⟨d, gr⟩ "sample-lesson-1" = Except.ok ⟨some SAMPLE_QUIZ⟩ ∧
    SAMPLE_QUIZ.correct_option = 0 ∧
    get_quiz s ⟨d, gr⟩ lesson_id = Except.ok ⟨none⟩ := by
  refine ⟨?_, ?_, rfl, rfl, ?_, ?_, rfl, ?_⟩
  · simp [list_courses, h]
  · simp [list_lessons, h, SAMPLE_COURSE, SAMPLE_LESSONS]
  · simp [list_lessons, h, hc]
  · simp [get_quiz, h, SAMPLE_QUIZ]
  · simp [get_quiz, h, hl]

/-- Closed instance of `fallback_serving`: raising probe, empty storage,
`other-course` and `other-lesson` as the non-sample identifiers. -/
theorem fallback_serving_witness :
    db_available downEnv = false ∧
    ("other-course" : String) ≠ SAMPLE_COURSE.id ∧
    ("other-lesson" : String) ≠ SAMPLE_QUIZ.lesson_id ∧
    (list_courses emptyStorage ⟨downEnv, false⟩ = Except.ok ⟨[SAMPLE_COURSE]⟩ ∧
     list_lessons emptyStorage ⟨downEnv, false⟩ "sample-course-1" =
       Except.ok ⟨[SAMPLE_LESSON_1, SAMPLE_LESSON_2]⟩ ∧
     SAMPLE_LESSON_1.order = 1 ∧ SAMPLE_LESSON_2.order = 2 ∧
     list_lessons emptyStorage ⟨downEnv, false⟩ "other-course" = Except.ok ⟨[]⟩ ∧
     get_quiz emptyStorage ⟨downEnv, false⟩ "sample-lesson-1" =
       Except.ok ⟨some SAMPLE_QUIZ⟩ ∧
     SAMPLE_QUIZ.correct_option = 0 ∧
     get_quiz emptyStorage ⟨downEnv, false⟩ "other-lesson" = Except.ok ⟨none⟩) :=
  ⟨by decide, by decide, by decide,
   fallback_serving emptyStorage downEnv false false false "other-course"
     "other-lesson" (by decide) (by decide) (by decide)⟩

end LMS
